import Mathlib

/-!
Verification of the `sharpy` linear aeroelastic assembler
(`sharpy/linear/assembler/linearaeroelastic.py`) and of the T-tail template
constructor checks (`cases/templates/Ttail.py`).

Matrices are embedded as rational-valued dense matrices with explicit row and
column counts; numpy slice assignment, scalar division and block construction
are embedded as the corresponding total operations on entries.  Library
functions of the repository that are not part of the two source files
(`libss`, the beam discrete-time assembly, the gain computation
`get_gebm2uvlm_gains`, `to_custom_types`) are modelled from the spec, as
marked on each definition.
-/

namespace Sharpy

/-- Dense rational matrix with explicit shape.  Entries are a total function;
statements about a matrix only constrain indices inside its shape. -/
structure Mat where
  rows : Nat
  cols : Nat
  entry : Nat → Nat → ℚ

/-- Sum of `f 0 + ... + f (n-1)`, used for matrix products. -/
def sumRange (n : Nat) (f : Nat → ℚ) : ℚ :=
  (List.range n).foldr (fun k acc => f k + acc) 0

/-- Embeds `np.zeros((m, n))`. -/
def Mat.zeros (m n : Nat) : Mat := ⟨m, n, fun _ _ => 0⟩

/-- Embeds `np.zeros_like(a)`. -/
def Mat.zerosLike (a : Mat) : Mat := Mat.zeros a.rows a.cols

/-- Embeds `np.eye(m, n)`: ones on the main diagonal inside the shape, zero elsewhere. -/
def Mat.eye (m n : Nat) : Mat :=
  ⟨m, n, fun i j => if i = j ∧ i < m ∧ j < n then 1 else 0⟩

/-- Entrywise sum (numpy `+` on equal shapes). -/
def Mat.add (a b : Mat) : Mat := ⟨a.rows, a.cols, fun i j => a.entry i j + b.entry i j⟩

/-- Scalar product `a * c` (numpy in-place scalar multiplication). -/
def Mat.scale (a : Mat) (c : ℚ) : Mat := ⟨a.rows, a.cols, fun i j => a.entry i j * c⟩

/-- Scalar division `a / c` (numpy in-place division of the whole array). -/
def Mat.sdiv (a : Mat) (c : ℚ) : Mat := ⟨a.rows, a.cols, fun i j => a.entry i j / c⟩

/-- Matrix product `a @ b` (inner dimension taken from `a.cols`). -/
def Mat.mul (a b : Mat) : Mat :=
  ⟨a.rows, b.cols, fun i j => sumRange a.cols (fun k => a.entry i k * b.entry k j)⟩

/-- Embeds `a.T`. -/
def Mat.transpose (a : Mat) : Mat := ⟨a.cols, a.rows, fun i j => a.entry j i⟩

/-- Slice assignment `base[r0:r1, c0:c1] = patch` (the source only uses slices
whose extent matches the shape of `patch`). -/
def Mat.setBlockRange (base : Mat) (r0 r1 c0 c1 : Nat) (patch : Mat) : Mat :=
  ⟨base.rows, base.cols, fun i j =>
    if r0 ≤ i ∧ i < r1 ∧ c0 ≤ j ∧ j < c1 then patch.entry (i - r0) (j - c0)
    else base.entry i j⟩

/-- Slice division `base[r0:r1, c0:c1] /= c`. -/
def Mat.divBlockRange (base : Mat) (r0 r1 c0 c1 : Nat) (c : ℚ) : Mat :=
  ⟨base.rows, base.cols, fun i j =>
    if r0 ≤ i ∧ i < r1 ∧ c0 ≤ j ∧ j < c1 then base.entry i j / c
    else base.entry i j⟩

/-- Row slice `a[:n, :]`. -/
def Mat.rowsTake (a : Mat) (n : Nat) : Mat := ⟨min n a.rows, a.cols, a.entry⟩

/-- Column slice `a[:, :n]`. -/
def Mat.colsTake (a : Mat) (n : Nat) : Mat := ⟨a.rows, min n a.cols, a.entry⟩

/-- Embeds `np.block([[a, b], [c, d]])`. -/
def Mat.blockTwoTwo (a b c d : Mat) : Mat :=
  ⟨a.rows + c.rows, a.cols + b.cols, fun i j =>
    if i < a.rows then
      (if j < a.cols then a.entry i j else b.entry i (j - a.cols))
    else
      (if j < c.cols then c.entry (i - a.rows) j else d.entry (i - a.rows) (j - c.cols))⟩

/-- Embeds `scipy.linalg.block_diag(a, a)`. -/
def Mat.blockDiag2 (a : Mat) : Mat :=
  Mat.blockTwoTwo a (Mat.zeros a.rows a.cols) (Mat.zeros a.rows a.cols) a

/-- Discrete-time linear state-space system (`libss.ss`): state matrix `A`,
input matrix `B`, output matrix `C`, feed-through matrix `D`, time step `dt`. -/
structure StateSpace where
  A : Mat
  B : Mat
  C : Mat
  D : Mat
  dt : ℚ

def StateSpace.inputs (ss : StateSpace) : Nat := ss.B.cols

def StateSpace.outputs (ss : StateSpace) : Nat := ss.C.rows

def StateSpace.states (ss : StateSpace) : Nat := ss.A.rows

/-- Modelled from the spec: input-side gain injection `libss.ss.addGain` is not under
`src/`; per the spec (4.1) it right-multiplies the input-side matrices so that
the input dimensionality becomes the other dimension of `K`. -/
def StateSpace.addGainIn (ss : StateSpace) (K : Mat) : StateSpace :=
  { ss with B := ss.B.mul K, D := ss.D.mul K }

/-- Modelled from the spec: output-side gain injection `libss.ss.addGain` is not under
`src/`; per the spec (4.1) it left-multiplies the output-side matrices so that
the output dimensionality becomes the other dimension of `K`. -/
def StateSpace.addGainOut (ss : StateSpace) (K : Mat) : StateSpace :=
  { ss with C := K.mul ss.C, D := K.mul ss.D }

/-- Modelled from the spec: `libss.couple(ss01, ss02, K12, K21)` is not under
`src/`; per the spec (4.1, 8.1) it forms the closed feedback interconnection
whose state is the concatenation of the two states (state count `n1 + n2`),
with the external input and output channel counts of both systems retained,
via standard block-matrix algebra with the feedback gains `K12`, `K21`. -/
def couple (ss01 ss02 : StateSpace) (K12 K21 : Mat) : StateSpace :=
  { A := Mat.blockTwoTwo ss01.A ((ss01.B.mul K12).mul ss02.C)
      ((ss02.B.mul K21).mul ss01.C) ss02.A
  , B := Mat.blockTwoTwo ss01.B (Mat.zeros ss01.B.rows ss02.B.cols)
      (Mat.zeros ss02.B.rows ss01.B.cols) ss02.B
  , C := Mat.blockTwoTwo ss01.C (Mat.zeros ss01.C.rows ss02.C.cols)
      (Mat.zeros ss02.C.rows ss01.C.cols) ss02.C
  , D := Mat.zeros (ss01.C.rows + ss02.C.rows) (ss01.B.cols + ss02.B.cols)
  , dt := ss01.dt }

/-- The named scaling factors of the aerodynamic subsystem
(`uvlm.sys.ScalingFacts`). -/
structure Scaling where
  length : ℚ
  speed : ℚ
  force : ℚ
  time : ℚ
  density : ℚ

/-- The underlying UVLM solver object (`uvlm.sys`), of which the assembler
only reads the scaling factors. -/
structure UvlmSys where
  ScalingFacts : Scaling

/-- The linear UVLM subsystem wrapper (`sharpy.linear.assembler.linearuvlm`),
of which the assembler uses the solver object, the state-space system and the
optional reduced-order model (a `run : system → system` map per spec 6). -/
structure LinearUVLM where
  sys : UvlmSys
  ss : StateSpace
  rom : Option (StateSpace → StateSpace)

/-- The structural solver state (`beam.sys`): stiffness and damping matrices,
degree-of-freedom and retained-mode counts, mode-shape matrix `U`, the current
reference time scale, and the discrete-time realization map.  The field `disc`
is Modelled from the spec: the beam first-order assembly
(`lingebm` / `linearbeam`, not under `src/`) is a deterministic function of the
current damping matrix, stiffness matrix and reference time scale (spec 4.3
step 3, 8.2). -/
structure BeamSys where
  Kstr : Mat
  Cstr : Mat
  num_dof : Nat
  num_modes : Nat
  U : Mat
  t_ref : ℚ
  disc : Mat → Mat → ℚ → StateSpace

/-- Modelled from the spec: `beam.sys.update_matrices_time_scale(t_ref)`
(not under `src/`) recomputes the structural time reference (spec:
"recomputes the structural time reference length/speed ratio"). -/
def BeamSys.update_matrices_time_scale (s : BeamSys) (t : ℚ) : BeamSys :=
  { s with t_ref := t }

/-- Modelled from the spec: `beam.sys.assemble()` followed by reading
`beam.sys.SSdisc` yields the discrete realization at the current matrices and
time scale. -/
def BeamSys.SSdiscOf (s : BeamSys) : StateSpace := s.disc s.Cstr s.Kstr s.t_ref

/-- The linear beam subsystem wrapper (`sharpy.linear.assembler.linearbeam`). -/
structure LinearBeam where
  sys : BeamSys
  ss : StateSpace

/-- Modelled from the spec: `LinearBeam.assemble(t_ref=...)` (not under `src/`)
assembles the structural state space at the given reference time scale
(spec 4.3 step 3). -/
def LinearBeam.assemble (b : LinearBeam) (t : ℚ) : LinearBeam :=
  let sys := b.sys.update_matrices_time_scale t
  { sys := sys, ss := sys.SSdiscOf }

/-- The aeroelastic linearisation object `self.sys`
(`sharpy.linear.src.lin_aeroelastic.LinAeroEla`): the flexible
degree-of-freedom count and the gain matrices read by `assemble`. -/
structure LinAeroEla where
  num_dof_flex : Nat
  Kss : Mat
  Krs : Mat
  Csr : Mat
  Crs : Mat
  Crr : Mat
  Kforces : Mat
  Kdisp : Mat
  Kdisp_vel : Mat
  Kvel_disp : Mat
  Kvel_vel : Mat

/-- Modelled from the spec: `get_gebm2uvlm_gains()` (not under `src/`)
deterministically computes the coupling gain matrices from the fixed
linearization state (spec 4.2); in this embedding the gain fields of
`LinAeroEla` hold its results, so the call leaves the record unchanged. -/
def LinAeroEla.get_gebm2uvlm_gains (s : LinAeroEla) : LinAeroEla := s

/-- The `beam_settings` sub-block fields read by `assemble`. -/
structure BeamSettings where
  modal_projection : Bool
  inout_coords : String

/-- The assembler settings after type coercion, with the fields `assemble`
reads. -/
structure AsmSettings where
  beam_settings : BeamSettings
  uvlm_filename : String

/-- The `self.couplings` dictionary: each key is either stored (`some`) or
absent (`none`). -/
structure Couplings where
  Ksa : Option Mat
  Kas : Option Mat
  Tas : Option Mat
  Tsa : Option Mat

/-- The five fields read from the persisted `.data.h5` file by `load_uvlm`
(`read_data.linear.lsys[sys_id].uvlm.ss`). -/
structure UvlmFileData where
  A : Mat
  B : Mat
  C : Mat
  D : Mat
  dt : ℚ

/-- Embeds `load_uvlm`: reconstructs a state-space object from exactly the five
persisted fields (`libss.ss(A, B, C, D, dt=dt)`); the h5 read result at the
configured filename is the `UvlmFileData` argument. -/
def load_uvlm (fd : UvlmFileData) : StateSpace :=
  ⟨fd.A, fd.B, fd.C, fd.D, fd.dt⟩

/-- The `LinearAeroelastic` assembler state. -/
structure Assembler where
  uvlm : LinearUVLM
  beam : LinearBeam
  sys : LinAeroEla
  settings : AsmSettings
  load_uvlm_from_file : Bool
  couplings : Couplings
  ss : Option StateSpace
  uvlmFileData : UvlmFileData
  state_variables : Option (Nat × Nat)

namespace LinearAeroelastic

/-- Embeds `flex_nodes = self.sys.num_dof_flex` (line 118). -/
def flex_nodes (s : Assembler) : Nat := s.sys.num_dof_flex

/-- Embeds `rigid_dof = beam.sys.Kstr.shape[0] - flex_nodes` (line 126), a Python
integer difference. -/
def rigid_dof0 (s : Assembler) : Int :=
  (s.beam.sys.Kstr.rows : Int) - (flex_nodes s : Int)

/-- Embeds `total_dof = flex_nodes + rigid_dof` (line 127). -/
def total_dof (s : Assembler) : Int :=
  (flex_nodes s : Int) + rigid_dof0 s

/-- The value of the Python variable `rigid_dof` after the conditional
rebinding `rigid_dof = beam.sys.Kstr.shape[0] - self.sys.Kss.shape[0]`
(line 130), which runs only inside the `if rigid_dof > 0` branch (line 129);
this is the value tested at line 187. -/
def rigid_dof (s : Assembler) : Int :=
  if rigid_dof0 s > 0 then (s.beam.sys.Kstr.rows : Int) - (s.sys.Kss.rows : Int)
  else rigid_dof0 s

/-- Embeds `stiff_aero` (lines 122, 124, 131): zeros like `Kstr`, top-left
flex-by-flex block set to `Kss`, and, when rigid DOFs are present, the rigid
rows of the flexible columns set to `Krs`. -/
def stiff_aero (s : Assembler) : Mat :=
  let f := flex_nodes s
  let base := (Mat.zerosLike s.beam.sys.Kstr).setBlockRange 0 f 0 f s.sys.Kss
  if rigid_dof0 s > 0 then
    base.setBlockRange f base.rows 0 f s.sys.Krs
  else base

/-- Embeds `damping_aero` (lines 123, 133-135): zeros like `Cstr`; when rigid DOFs
are present, the blocks `Csr`, `Crr`, `Crs` are injected. -/
def damping_aero (s : Assembler) : Mat :=
  let f := flex_nodes s
  let base := Mat.zerosLike s.beam.sys.Cstr
  if rigid_dof0 s > 0 then
    ((base.setBlockRange 0 f f base.cols s.sys.Csr
      ).setBlockRange f base.rows f base.cols s.sys.Crr
      ).setBlockRange f base.rows 0 f s.sys.Crs
  else base

/-- The beam after the in-place mutation
`beam.sys.Cstr += damping_aero; beam.sys.Kstr += stiff_aero`
(lines 137-138). -/
def beamMutated (s : Assembler) : LinearBeam :=
  { s.beam with sys :=
    { s.beam.sys with
        Cstr := s.beam.sys.Cstr.add (damping_aero s)
        Kstr := s.beam.sys.Kstr.add (stiff_aero s) } }

/-- The beam after the call of `beam.assemble` at the time scaling factor
(line 140). -/
def beamAfter (s : Assembler) : LinearBeam :=
  (beamMutated s).assemble s.uvlm.sys.ScalingFacts.time

/-- Embeds `Ksa` (line 145), the first `beam.sys.num_dof` rows of `Kforces`. -/
def mkKsa (s : Assembler) (beam : LinearBeam) : Mat :=
  s.sys.Kforces.rowsTake beam.sys.num_dof

/-- Embeds `Kas` (lines 148-153): a zero matrix holding the 2x2 block of position and
velocity gains in its top-left corner and an identity over the retained
(gust and control-surface) input channels in its bottom-right corner. -/
def mkKas (s : Assembler) (beam : LinearBeam) : Mat :=
  let nd := beam.sys.num_dof
  let kd := s.sys.Kdisp.rows
  let base := Mat.zeros s.uvlm.ss.inputs (2 * nd + (s.uvlm.ss.inputs - 2 * kd))
  let blk := Mat.blockTwoTwo (s.sys.Kdisp.colsTake nd) (s.sys.Kdisp_vel.colsTake nd)
    (s.sys.Kvel_disp.colsTake nd) (s.sys.Kvel_vel.colsTake nd)
  let withBlk := base.setBlockRange 0 (2 * kd) 0 (2 * nd) blk
  withBlk.setBlockRange (2 * kd) withBlk.rows (2 * nd) withBlk.cols
    (Mat.eye (s.uvlm.ss.inputs - 2 * kd) (s.uvlm.ss.inputs - 2 * kd))

/-- Embeds `in_mode_matrix` (lines 165-167): an identity of shape
(current uvlm inputs) x (beam outputs + retained inputs), with the block
`[:2*num_dof, :2*num_modes]` replaced by `block_diag(phi, phi)`, the whole
matrix then divided by the length scaling factor. -/
def inModeMatrix (uvlmInputs beamOutputs numdof nummodes : Nat) (phi : Mat)
    (len : ℚ) : Mat :=
  let base := Mat.eye uvlmInputs (beamOutputs + (uvlmInputs - 2 * numdof))
  let withBlk := base.setBlockRange 0 (2 * numdof) 0 (2 * nummodes) (Mat.blockDiag2 phi)
  withBlk.sdiv len

/-- The projection branch of `assemble` (lines 142-178): on the non-load path
the UVLM is projected onto structural DOFs via `Ksa`/`Kas` (which are stored
in the couplings), optionally projected onto modal space, and optionally
reduced; on the load path the UVLM state space is replaced by the file
reconstruction and the couplings are untouched. -/
def project (s : Assembler) (beam : LinearBeam) : LinearUVLM × Couplings :=
  if s.load_uvlm_from_file = false then
    let Ksa := mkKsa s beam
    let Kas := mkKas s beam
    let ss1 := (s.uvlm.ss.addGainOut Ksa).addGainIn Kas
    let couplings := { s.couplings with Ksa := some Ksa, Kas := some Kas }
    let ss2 :=
      if s.settings.beam_settings.modal_projection = true ∧
          s.settings.beam_settings.inout_coords = "modes" then
        let phi := beam.sys.U
        let imm := inModeMatrix ss1.inputs beam.ss.outputs beam.sys.num_dof
          beam.sys.num_modes phi s.uvlm.sys.ScalingFacts.length
        (ss1.addGainIn imm).addGainOut phi.transpose
      else ss1
    let ss3 := match s.uvlm.rom with
      | some r => r ss2
      | none => ss2
    ({ s.uvlm with ss := ss3 }, couplings)
  else
    ({ s.uvlm with ss := load_uvlm s.uvlmFileData }, s.couplings)

/-- The projected UVLM and couplings used by `assemble`. -/
def projectAfter (s : Assembler) : LinearUVLM × Couplings :=
  project s (beamAfter s)

/-- Embeds `Tas` (lines 181, 187-193): identity-like map of shape
(uvlm inputs) x (beam outputs); on the rigid path the two row blocks are
divided by the length scaling factor, otherwise the whole matrix is divided by
the length scaling factor unless modal projection is on. -/
def mkTas (s : Assembler) (uvlmInputs beamOutputs : Nat) : Mat :=
  let len := s.uvlm.sys.ScalingFacts.length
  let f := flex_nodes s
  let base := Mat.eye uvlmInputs beamOutputs
  if rigid_dof s > 0 then
    (base.divBlockRange 0 (f + 3) 0 (f + 3) len).divBlockRange
      (total_dof s).toNat ((total_dof s).toNat + f + 3) 0 base.cols len
  else
    if s.settings.beam_settings.modal_projection = false then base.sdiv len
    else base

/-- Embeds `Tsa` (lines 182, 186): identity-like map of shape
(beam inputs) x (uvlm outputs), scaled by the force factor times the squared
time factor. -/
def mkTsa (s : Assembler) (beamInputs uvlmOutputs : Nat) : Mat :=
  (Mat.eye beamInputs uvlmOutputs).scale
    (s.uvlm.sys.ScalingFacts.force * s.uvlm.sys.ScalingFacts.time ^ 2)

/-- The `Tas` matrix built by `assemble` for the current state. -/
def TasOf (s : Assembler) : Mat :=
  mkTas s (projectAfter s).1.ss.inputs (beamAfter s).ss.outputs

/-- The `Tsa` matrix built by `assemble` for the current state. -/
def TsaOf (s : Assembler) : Mat :=
  mkTsa s (beamAfter s).ss.inputs (projectAfter s).1.ss.outputs

/-- Embeds `LinearAeroelastic.assemble` (lines 85-203).  Returns the new assembler
state together with the flag recording whether the unsupported-configuration
warning of line 188 was emitted; the function is total, so assembly always
completes (the warning is non-fatal). -/
def assemble (s : Assembler) : Assembler × Bool :=
  let sys := s.sys.get_gebm2uvlm_gains
  let beam := beamAfter s
  let uvlm := (projectAfter s).1
  let Tas := TasOf s
  let Tsa := TsaOf s
  let ssC := couple uvlm.ss beam.ss Tas Tsa
  ({ s with
      sys := sys
      uvlm := uvlm
      beam := beam
      couplings := { (projectAfter s).2 with Tas := some Tas, Tsa := some Tsa }
      ss := some ssC
      state_variables := some (uvlm.ss.states, beam.ss.states) },
    decide (rigid_dof s > 0))

/-- Python exceptions distinguished by the embedding of `initialise` and
`update`. -/
inductive PyErr where
  | keyError
  | typeError
deriving DecidableEq

/-- Embeds `LinearAeroelastic.update` (lines 205-227): recomputes
`t_ref = length / u_infty`, reassembles only the beam at the new time scale,
and recouples with the stored coupling matrices; reading a missing couplings
key is a `KeyError`. -/
def update (s : Assembler) (u_infty : ℚ) : Except PyErr (Assembler × StateSpace) :=
  let t_ref := s.uvlm.sys.ScalingFacts.length / u_infty
  let sys1 := s.beam.sys.update_matrices_time_scale t_ref
  let beam : LinearBeam := { sys := sys1, ss := sys1.SSdiscOf }
  match s.couplings.Tas, s.couplings.Tsa with
  | some tas, some tsa =>
    let ssC := couple s.uvlm.ss beam.ss tas tsa
    Except.ok ({ s with beam := beam, ss := some ssC }, ssC)
  | _, _ => Except.error PyErr.keyError

/-- A Python settings value: either a string or a nested dictionary
(association list). -/
inductive SVal where
  | str (s : String)
  | dict (entries : List (String × SVal))

/-- The incoming `data` object of `initialise`: its `settings` dictionary. -/
structure InitData where
  settings : List (String × SVal)

/-- Python subscript `obj[key]` on the value bound to `self.settings`:
subscripting `None` raises `TypeError`; subscripting a string with a string
key raises `TypeError`; a dictionary raises `KeyError` when the key is
absent. -/
def pyGetItem (s : Option SVal) (key : String) : Except PyErr SVal :=
  match s with
  | none => Except.error PyErr.typeError
  | some (SVal.str _) => Except.error PyErr.typeError
  | some (SVal.dict d) => match d.lookup key with
    | some v => Except.ok v
    | none => Except.error PyErr.keyError

/-- Embeds a try/except KeyError block around a subscript: a `KeyError` is
caught and yields `None`; any other exception propagates. -/
def tryKeyError (r : Except PyErr SVal) : Except PyErr (Option SVal) :=
  match r with
  | Except.ok v => Except.ok (some v)
  | Except.error PyErr.keyError => Except.ok none
  | Except.error e => Except.error e

/-- The chained subscript
of the data settings by LinearAssembler and then by the system id (line 47). -/
def chainLookup (d : InitData) : Except PyErr SVal :=
  match d.settings.lookup "LinearAssembler" with
  | none => Except.error PyErr.keyError
  | some v => pyGetItem (some v) "LinearAeroelastic"

/-- Modelled from the spec: `settings.to_custom_types` (module
`sharpy.utils.settings`, not under `src/`) validates the settings against the
declared type/default metadata, silently applying declared defaults (here the
empty-string default for `uvlm_filename`); it cannot rebind an absent
settings object, so an absent configuration stays absent. -/
def to_custom_types (s : Option SVal) : Option SVal :=
  s.map fun v =>
    match v with
    | SVal.dict d =>
        if (d.lookup "uvlm_filename").isSome then SVal.dict d
        else SVal.dict (d ++ [("uvlm_filename", SVal.str "")])
    | other => other

/-- Compares a settings value with the empty string. -/
def isEmptyStr (v : SVal) : Bool :=
  match v with
  | SVal.str "" => true
  | _ => false

/-- The fields of the assembler state set by `initialise` that the embedding
tracks. -/
structure InitState where
  settings : Option SVal
  uvlm_settings : Option SVal
  beam_settings : Option SVal
  load_uvlm_from_file : Bool

/-- Embeds `LinearAeroelastic.initialise` (lines 44-83).  The construction of
`LinAeroEla` (line 52) and the subsystem `initialise`/`assemble` calls
(lines 66-69, 81-82) are external collaborators assumed to succeed (spec 2);
the settings reads and `try`/`except KeyError` blocks are embedded exactly:
only `KeyError` is caught, and subscripting a `None` settings object raises
`TypeError`. -/
def initialise (d : InitData) : Except PyErr InitState :=
  match tryKeyError (chainLookup d) with
  | Except.error e => Except.error e
  | Except.ok settings0 =>
    let settings := to_custom_types settings0
    match tryKeyError (pyGetItem settings "aero_settings") with
    | Except.error e => Except.error e
    | Except.ok uvlm_settings =>
      match pyGetItem settings "uvlm_filename" with
      | Except.error e => Except.error e
      | Except.ok fn =>
        let load := !(isEmptyStr fn)
        match tryKeyError (pyGetItem settings "beam_settings") with
        | Except.error e => Except.error e
        | Except.ok beam_settings =>
          Except.ok
            { settings := settings
              uvlm_settings := uvlm_settings
              beam_settings := beam_settings
              load_uvlm_from_file := load }

end LinearAeroelastic

namespace Ttail

/-- The panelling assertions of `Ttail_3beams.__init__` (Ttail.py lines
106-109): `assert Nv % 2 != 1` and `assert Nh % 4 != 1`.  The constructor
raises `AssertionError` exactly when this predicate is `true`.  Python `%`
with a positive modulus agrees with `Int` `%` (both yield the representative
in `[0, modulus)`). -/
def ttail_3beams_asserts_fail (Nv Nh : Int) : Bool :=
  (Nv % 2 == 1) || (Nh % 4 == 1)

end Ttail

/-! Concrete instances used to instantiate the theorems below. -/

/-- Unit scaling factors (length, speed, force, time, density all `1`). -/
def exScaling : Scaling := ⟨1, 1, 1, 1, 1⟩

/-- A concrete structural discrete realization map: one state, one input, one
output, with the state matrix scaled by the reference time and `dt` equal to
the reference time. -/
def exDisc : Mat → Mat → ℚ → StateSpace :=
  fun _ _ t => ⟨(Mat.eye 1 1).scale t, Mat.eye 1 1, Mat.eye 1 1, Mat.eye 1 1, t⟩

/-- A concrete UVLM state space with two states, two inputs, two outputs. -/
def exUvlmSS : StateSpace :=
  ⟨Mat.eye 2 2, Mat.eye 2 2, Mat.eye 2 2, Mat.eye 2 2, 1⟩

/-- A concrete UVLM subsystem with unit scaling and no reduced-order model. -/
def exUvlm : LinearUVLM := ⟨⟨exScaling⟩, exUvlmSS, none⟩

/-- Gain matrices of a model with one flexible DOF and 1x1 blocks. -/
def exGains : LinAeroEla :=
  ⟨1, Mat.eye 1 1, Mat.eye 1 1, Mat.eye 1 1, Mat.eye 1 1, Mat.eye 1 1,
    Mat.eye 2 2, Mat.eye 1 1, Mat.eye 1 1, Mat.eye 1 1, Mat.eye 1 1⟩

/-- A beam with one flexible DOF and no rigid-body DOFs (`Kstr` is 1x1). -/
def exBeamSysFlex : BeamSys :=
  ⟨Mat.eye 1 1, Mat.eye 1 1, 1, 1, Mat.eye 1 1, 1, exDisc⟩

/-- A beam with one flexible DOF and one rigid-body DOF (`Kstr` is 2x2). -/
def exBeamSysRigid : BeamSys :=
  ⟨Mat.eye 2 2, Mat.eye 2 2, 2, 1, Mat.eye 1 1, 1, exDisc⟩

/-- A placeholder pre-assembly beam state space. -/
def exBeamSS : StateSpace :=
  ⟨Mat.eye 1 1, Mat.eye 1 1, Mat.eye 1 1, Mat.eye 1 1, 1⟩

/-- Settings with modal projection off. -/
def exSettingsNoModal : AsmSettings := ⟨⟨false, "nodes"⟩, ""⟩

/-- Settings with modal projection on and modal input/output coordinates. -/
def exSettingsModal : AsmSettings := ⟨⟨true, "modes"⟩, ""⟩

/-- Settings naming a persisted UVLM file. -/
def exSettingsLoad : AsmSettings := ⟨⟨false, "nodes"⟩, "saved.data.h5"⟩

/-- Empty couplings dictionary. -/
def exCouplingsEmpty : Couplings := ⟨none, none, none, none⟩

/-- Concrete persisted state-space fields. -/
def exFileData : UvlmFileData :=
  ⟨Mat.eye 3 3, Mat.eye 3 1, Mat.eye 1 3, Mat.eye 1 1, (1 : ℚ) / 2⟩

/-- An assembler with no rigid-body DOFs, modal projection off, and no
persisted file. -/
def exAsmFlex : Assembler :=
  ⟨exUvlm, ⟨exBeamSysFlex, exBeamSS⟩, exGains, exSettingsNoModal, false,
    exCouplingsEmpty, none, exFileData, none⟩

/-- An assembler with no rigid-body DOFs and modal projection on. -/
def exAsmModal : Assembler :=
  ⟨exUvlm, ⟨exBeamSysFlex, exBeamSS⟩, exGains, exSettingsModal, false,
    exCouplingsEmpty, none, exFileData, none⟩

/-- An assembler with one rigid-body DOF and unit scaling factors (in
particular a unit time scaling factor). -/
def exAsmRigid : Assembler :=
  ⟨exUvlm, ⟨exBeamSysRigid, exBeamSS⟩, exGains, exSettingsNoModal, false,
    exCouplingsEmpty, none, exFileData, none⟩

/-- An assembler configured to load the UVLM from a persisted file. -/
def exAsmLoad : Assembler :=
  ⟨exUvlm, ⟨exBeamSysFlex, exBeamSS⟩, exGains, exSettingsLoad, true,
    exCouplingsEmpty, none, exFileData, none⟩

/-- Incoming data whose settings hold no `LinearAssembler` block at all. -/
def exDataNoBlock : LinearAeroelastic.InitData := ⟨[]⟩

/-- Incoming data with a `LinearAssembler` block that holds no
`LinearAeroelastic` sub-block. -/
def exDataEmptyBlock : LinearAeroelastic.InitData :=
  ⟨[("LinearAssembler", LinearAeroelastic.SVal.dict [])]⟩

end Sharpy

open Sharpy Sharpy.LinearAeroelastic

/-! Shared helper lemmas. -/

theorem project_fst_sys (s : Assembler) (b : LinearBeam) :
    (LinearAeroelastic.project s b).1.sys = s.uvlm.sys := by
  unfold LinearAeroelastic.project
  split <;> rfl

theorem projectAfter_fst_sys (s : Assembler) :
    (LinearAeroelastic.projectAfter s).1.sys = s.uvlm.sys :=
  project_fst_sys s (LinearAeroelastic.beamAfter s)

theorem rigid_dof_eq_of_Kss (s : Assembler)
    (hKss : s.sys.Kss.rows = s.sys.num_dof_flex) :
    LinearAeroelastic.rigid_dof s = LinearAeroelastic.rigid_dof0 s := by
  unfold LinearAeroelastic.rigid_dof
  split
  · unfold LinearAeroelastic.rigid_dof0 LinearAeroelastic.flex_nodes
    rw [hKss]
  · rfl

theorem rigid_dof0_zero (s : Assembler)
    (h : s.beam.sys.Kstr.rows = s.sys.num_dof_flex) :
    LinearAeroelastic.rigid_dof0 s = 0 := by
  unfold LinearAeroelastic.rigid_dof0 LinearAeroelastic.flex_nodes
  rw [h, sub_self]

theorem eye_entry_in (m n i j : Nat) (hi : i < m) (hj : j < n) :
    (Mat.eye m n).entry i j = if i = j then 1 else 0 := by
  simp [Mat.eye, hi, hj]

theorem mkTas_rows (s : Assembler) (m n : Nat) :
    (LinearAeroelastic.mkTas s m n).rows = m := by
  simp only [LinearAeroelastic.mkTas]
  split
  · rfl
  · split <;> rfl

theorem mkTas_cols (s : Assembler) (m n : Nat) :
    (LinearAeroelastic.mkTas s m n).cols = n := by
  simp only [LinearAeroelastic.mkTas]
  split
  · rfl
  · split <;> rfl

theorem mkTsa_rows (s : Assembler) (m n : Nat) :
    (LinearAeroelastic.mkTsa s m n).rows = m := rfl

theorem mkTsa_cols (s : Assembler) (m n : Nat) :
    (LinearAeroelastic.mkTsa s m n).cols = n := rfl

theorem mkTsa_entry (s : Assembler) (m n i j : Nat) (hi : i < m) (hj : j < n) :
    (LinearAeroelastic.mkTsa s m n).entry i j = (if i = j then 1 else 0) *
      (s.uvlm.sys.ScalingFacts.force * s.uvlm.sys.ScalingFacts.time ^ 2) := by
  simp only [LinearAeroelastic.mkTsa, Mat.scale]
  rw [eye_entry_in m n i j hi hj]

theorem mkTas_entry_nomodal (s : Assembler)
    (hr : ¬ LinearAeroelastic.rigid_dof s > 0)
    (hm : s.settings.beam_settings.modal_projection = false)
    (m n i j : Nat) (hi : i < m) (hj : j < n) :
    (LinearAeroelastic.mkTas s m n).entry i j =
      (if i = j then 1 else 0) / s.uvlm.sys.ScalingFacts.length := by
  simp only [LinearAeroelastic.mkTas]
  rw [if_neg hr, if_pos hm]
  simp only [Mat.sdiv]
  rw [eye_entry_in m n i j hi hj]

theorem mkTas_entry_modal (s : Assembler)
    (hr : ¬ LinearAeroelastic.rigid_dof s > 0)
    (hm : s.settings.beam_settings.modal_projection = true)
    (m n i j : Nat) (hi : i < m) (hj : j < n) :
    (LinearAeroelastic.mkTas s m n).entry i j = (if i = j then 1 else 0) := by
  simp only [LinearAeroelastic.mkTas]
  rw [if_neg hr, if_neg (by simp [hm])]
  exact eye_entry_in m n i j hi hj

theorem update_of_stored (s : Assembler) (v : ℚ) (tas tsa : Mat)
    (hT : s.couplings.Tas = some tas) (hS : s.couplings.Tsa = some tsa) :
    LinearAeroelastic.update s v = Except.ok
      ({ s with
          beam := ⟨s.beam.sys.update_matrices_time_scale
              (s.uvlm.sys.ScalingFacts.length / v),
            (s.beam.sys.update_matrices_time_scale
              (s.uvlm.sys.ScalingFacts.length / v)).SSdiscOf⟩
          ss := some (couple s.uvlm.ss
            (s.beam.sys.update_matrices_time_scale
              (s.uvlm.sys.ScalingFacts.length / v)).SSdiscOf tas tsa) },
        couple s.uvlm.ss
          (s.beam.sys.update_matrices_time_scale
            (s.uvlm.sys.ScalingFacts.length / v)).SSdiscOf tas tsa) := by
  unfold LinearAeroelastic.update
  rw [hT, hS]

/-- Claim C10: the `Ttail_3beams` panelling assertions raise exactly when
`Nv % 2 = 1` or `Nh % 4 = 1`; for every `Nh` with `Nh % 4` in `{0, 2, 3}`
(and admissible `Nv`) the constructor does not raise an assertion error, even
though the documented requirement is divisibility of `Nh` by 4; in particular
`Nh = 6` is accepted. -/
theorem claimC10_thm :
    (∀ Nv Nh : Int, Ttail.ttail_3beams_asserts_fail Nv Nh = true ↔
      (Nv % 2 = 1 ∨ Nh % 4 = 1)) ∧
    (∀ Nv Nh : Int, Nv % 2 ≠ 1 →
      (Nh % 4 = 0 ∨ Nh % 4 = 2 ∨ Nh % 4 = 3) →
      Ttail.ttail_3beams_asserts_fail Nv Nh = false) ∧
    Ttail.ttail_3beams_asserts_fail 2 6 = false := by
  refine ⟨?_, ?_, by decide⟩
  · intro Nv Nh
    simp [Ttail.ttail_3beams_asserts_fail]
  · intro Nv Nh h1 h2
    simp only [Ttail.ttail_3beams_asserts_fail, Bool.or_eq_false_iff]
    constructor
    · simpa using h1
    · simp only [beq_eq_false_iff_ne, ne_eq]
      omega

/-- Claim C10 witness: the panelling check accepts `Nv = 2`, `Nh = 6`. -/
theorem claimC10_witness :
    Ttail.ttail_3beams_asserts_fail 2 6 = false :=
  claimC10_thm.2.1 2 6 (by decide) (Or.inr (Or.inl (by decide)))

/-- Claim C3 counterexample: when the incoming data settings contain no
`LinearAssembler` block, `initialise` does not proceed with subsystem
initialisation: the caught `KeyError` leaves the settings as `None`, and the
later subscript of the settings by aero_settings (line 61) raises an uncaught
`TypeError`, so `initialise` fails. -/
theorem claimC3_counterexample :
    LinearAeroelastic.initialise exDataNoBlock =
      Except.error PyErr.typeError := rfl

/-- Claim C3 (amended): if the incoming data settings contain no
`LinearAssembler`/`LinearAeroelastic` sub-block, `initialise` catches the
`KeyError` and silently defaults the configuration to `None`, but it then
fails with an uncaught `TypeError` when the `None` configuration is
subscripted for `aero_settings`, rather than proceeding with subsystem
initialisation (and rather than raising a configuration error). -/
theorem claimC3_thm (d : InitData)
    (h : LinearAeroelastic.chainLookup d = Except.error PyErr.keyError) :
    LinearAeroelastic.initialise d = Except.error PyErr.typeError := by
  unfold LinearAeroelastic.initialise
  rw [h]
  rfl

/-- Claim C3 witness: data with a `LinearAssembler` block but no
`LinearAeroelastic` sub-block makes `initialise` fail with a `TypeError`. -/
theorem claimC3_witness :
    LinearAeroelastic.initialise exDataEmptyBlock =
      Except.error PyErr.typeError :=
  claimC3_thm exDataEmptyBlock rfl

/-- Claim C1 counterexample: an assembler with rigid-body DOFs present
(`rigid_dof > 0`) and a unit aerodynamic time scaling factor still emits the
unsupported-configuration warning during `assemble`, contradicting the claim
that no warning is emitted when the time scaling factor is unit. -/
theorem claimC1_counterexample :
    exAsmRigid.uvlm.sys.ScalingFacts.time = 1 ∧
    LinearAeroelastic.rigid_dof0 exAsmRigid > 0 ∧
    (LinearAeroelastic.assemble exAsmRigid).2 = true :=
  ⟨rfl, by decide, by decide⟩

/-- Claim C1 (amended): the non-fatal unsupported-configuration warning is
raised if and only if rigid-body degrees of freedom are present, regardless
of the aerodynamic time scaling factor (its value does not appear in the
condition); the warning does not abort assembly, which still produces the
coupled system. -/
theorem claimC1_thm (s : Assembler)
    (hKss : s.sys.Kss.rows = s.sys.num_dof_flex) :
    ((LinearAeroelastic.assemble s).2 = true ↔
      LinearAeroelastic.rigid_dof0 s > 0) ∧
    (LinearAeroelastic.assemble s).1.ss =
      some (couple (LinearAeroelastic.projectAfter s).1.ss
        (LinearAeroelastic.beamAfter s).ss
        (LinearAeroelastic.TasOf s) (LinearAeroelastic.TsaOf s)) := by
  constructor
  · have hr := rigid_dof_eq_of_Kss s hKss
    show decide (LinearAeroelastic.rigid_dof s > 0) = true ↔ _
    rw [hr]
    exact decide_eq_true_iff
  · rfl

/-- Claim C1 witness: the amended statement at the concrete rigid-DOF
assembler. -/
theorem claimC1_witness :
    ((LinearAeroelastic.assemble exAsmRigid).2 = true ↔
      LinearAeroelastic.rigid_dof0 exAsmRigid > 0) ∧
    (LinearAeroelastic.assemble exAsmRigid).1.ss =
      some (couple (LinearAeroelastic.projectAfter exAsmRigid).1.ss
        (LinearAeroelastic.beamAfter exAsmRigid).ss
        (LinearAeroelastic.TasOf exAsmRigid)
        (LinearAeroelastic.TsaOf exAsmRigid)) :=
  claimC1_thm exAsmRigid rfl

/-- Claim C8: with zero rigid-body DOFs (structural stiffness dimension equal
to the flexible DOF count) the rigid-row injection blocks are inert: the
aerodynamic damping increment added to `Cstr` is all-zero, the stiffness
increment added to `Kstr` equals `Kss` on the top-left flex-by-flex block and
is zero everywhere else, and no rigid-scaling warning is emitted. -/
theorem claimC8_thm (s : Assembler)
    (h : s.beam.sys.Kstr.rows = s.sys.num_dof_flex) :
    (∀ i j, (LinearAeroelastic.damping_aero s).entry i j = 0) ∧
    (∀ i j, i < s.sys.num_dof_flex → j < s.sys.num_dof_flex →
      (LinearAeroelastic.stiff_aero s).entry i j = s.sys.Kss.entry i j) ∧
    (∀ i j, s.sys.num_dof_flex ≤ i ∨ s.sys.num_dof_flex ≤ j →
      (LinearAeroelastic.stiff_aero s).entry i j = 0) ∧
    (LinearAeroelastic.assemble s).2 = false := by
  have h0 : LinearAeroelastic.rigid_dof0 s = 0 := rigid_dof0_zero s h
  have hd : LinearAeroelastic.damping_aero s = Mat.zerosLike s.beam.sys.Cstr := by
    unfold LinearAeroelastic.damping_aero
    rw [h0]
    simp
  have hs : LinearAeroelastic.stiff_aero s =
      (Mat.zerosLike s.beam.sys.Kstr).setBlockRange 0 (LinearAeroelastic.flex_nodes s)
        0 (LinearAeroelastic.flex_nodes s) s.sys.Kss := by
    unfold LinearAeroelastic.stiff_aero
    rw [h0]
    simp
  refine ⟨?_, ?_, ?_, ?_⟩
  · intro i j
    rw [hd]
    simp [Mat.zerosLike, Mat.zeros]
  · intro i j hi hj
    rw [hs]
    simp [Mat.setBlockRange, LinearAeroelastic.flex_nodes, hi, hj]
  · intro i j hij
    rw [hs]
    have hcond : ¬(0 ≤ i ∧ i < LinearAeroelastic.flex_nodes s ∧ 0 ≤ j ∧
        j < LinearAeroelastic.flex_nodes s) := by
      unfold LinearAeroelastic.flex_nodes
      omega
    simp only [Mat.setBlockRange, hcond, if_false]
    simp [Mat.zerosLike, Mat.zeros]
  · show decide (LinearAeroelastic.rigid_dof s > 0) = false
    unfold LinearAeroelastic.rigid_dof
    rw [h0]
    simp

/-- Claim C8 witness: the zero-rigid-DOF statement at the concrete flexible
assembler. -/
theorem claimC8_witness :
    (∀ i j, (LinearAeroelastic.damping_aero exAsmFlex).entry i j = 0) ∧
    (∀ i j, i < exAsmFlex.sys.num_dof_flex → j < exAsmFlex.sys.num_dof_flex →
      (LinearAeroelastic.stiff_aero exAsmFlex).entry i j =
        exAsmFlex.sys.Kss.entry i j) ∧
    (∀ i j, exAsmFlex.sys.num_dof_flex ≤ i ∨ exAsmFlex.sys.num_dof_flex ≤ j →
      (LinearAeroelastic.stiff_aero exAsmFlex).entry i j = 0) ∧
    (LinearAeroelastic.assemble exAsmFlex).2 = false :=
  claimC8_thm exAsmFlex rfl

/-- Claim C4: with modal projection enabled, the input-side modal projection
matrix satisfies `in_mode_matrix[:2*ndof, :2*nmodes] = block_diag(phi, phi) /
length_scale`, where `phi` is the beam mode-shape matrix with `ndof` rows and
`nmodes` columns. -/
theorem claimC4_thm (uvlmInputs beamOutputs numdof nummodes : Nat) (phi : Mat)
    (len : ℚ) (hrows : phi.rows = numdof) (hcols : phi.cols = nummodes)
    (i j : Nat) (hi : i < 2 * numdof) (hj : j < 2 * nummodes) :
    (LinearAeroelastic.inModeMatrix uvlmInputs beamOutputs numdof nummodes
      phi len).entry i j = (Mat.blockDiag2 phi).entry i j / len := by
  simp [LinearAeroelastic.inModeMatrix, Mat.sdiv, Mat.setBlockRange, hi, hj]

/-- Claim C4 witness: the modal-projection block equation at a concrete
instance. -/
theorem claimC4_witness :
    (LinearAeroelastic.inModeMatrix 4 2 1 1 (Mat.eye 1 1) 2).entry 0 0
      = (Mat.blockDiag2 (Mat.eye 1 1)).entry 0 0 / 2 :=
  claimC4_thm 4 2 1 1 (Mat.eye 1 1) 2 rfl rfl 0 0 (by decide) (by decide)

/-- Claim C5: with a non-empty `uvlm_filename`, `assemble` takes the load
path: no `Ksa`/`Kas` gain injection or modal projection or reduction is
recorded (the couplings `Ksa`/`Kas` are untouched) and the aerodynamic state
space is replaced by the reconstruction from exactly the five persisted
fields `A`, `B`, `C`, `D`, `dt`. -/
theorem claimC5_thm (s : Assembler) (h : s.load_uvlm_from_file = true) :
    (LinearAeroelastic.assemble s).1.uvlm.ss = load_uvlm s.uvlmFileData ∧
    (LinearAeroelastic.assemble s).1.uvlm.ss.A = s.uvlmFileData.A ∧
    (LinearAeroelastic.assemble s).1.uvlm.ss.B = s.uvlmFileData.B ∧
    (LinearAeroelastic.assemble s).1.uvlm.ss.C = s.uvlmFileData.C ∧
    (LinearAeroelastic.assemble s).1.uvlm.ss.D = s.uvlmFileData.D ∧
    (LinearAeroelastic.assemble s).1.uvlm.ss.dt = s.uvlmFileData.dt ∧
    (LinearAeroelastic.assemble s).1.couplings.Ksa = s.couplings.Ksa ∧
    (LinearAeroelastic.assemble s).1.couplings.Kas = s.couplings.Kas := by
  have hp : LinearAeroelastic.projectAfter s =
      ({ s.uvlm with ss := load_uvlm s.uvlmFileData }, s.couplings) := by
    unfold LinearAeroelastic.projectAfter LinearAeroelastic.project
    rw [h]
    simp
  refine ⟨?_, ?_, ?_, ?_, ?_, ?_, ?_, ?_⟩
  · show (LinearAeroelastic.projectAfter s).1.ss = load_uvlm s.uvlmFileData
    rw [hp]
  · show (LinearAeroelastic.projectAfter s).1.ss.A = s.uvlmFileData.A
    rw [hp]
    rfl
  · show (LinearAeroelastic.projectAfter s).1.ss.B = s.uvlmFileData.B
    rw [hp]
    rfl
  · show (LinearAeroelastic.projectAfter s).1.ss.C = s.uvlmFileData.C
    rw [hp]
    rfl
  · show (LinearAeroelastic.projectAfter s).1.ss.D = s.uvlmFileData.D
    rw [hp]
    rfl
  · show (LinearAeroelastic.projectAfter s).1.ss.dt = s.uvlmFileData.dt
    rw [hp]
    rfl
  · show (LinearAeroelastic.projectAfter s).2.Ksa = s.couplings.Ksa
    rw [hp]
  · show (LinearAeroelastic.projectAfter s).2.Kas = s.couplings.Kas
    rw [hp]

/-- Claim C5 witness: the load path at the concrete load-configured
assembler. -/
theorem claimC5_witness :
    (LinearAeroelastic.assemble exAsmLoad).1.uvlm.ss =
      load_uvlm exAsmLoad.uvlmFileData ∧
    (LinearAeroelastic.assemble exAsmLoad).1.uvlm.ss.A = exAsmLoad.uvlmFileData.A ∧
    (LinearAeroelastic.assemble exAsmLoad).1.uvlm.ss.B = exAsmLoad.uvlmFileData.B ∧
    (LinearAeroelastic.assemble exAsmLoad).1.uvlm.ss.C = exAsmLoad.uvlmFileData.C ∧
    (LinearAeroelastic.assemble exAsmLoad).1.uvlm.ss.D = exAsmLoad.uvlmFileData.D ∧
    (LinearAeroelastic.assemble exAsmLoad).1.uvlm.ss.dt = exAsmLoad.uvlmFileData.dt ∧
    (LinearAeroelastic.assemble exAsmLoad).1.couplings.Ksa =
      exAsmLoad.couplings.Ksa ∧
    (LinearAeroelastic.assemble exAsmLoad).1.couplings.Kas =
      exAsmLoad.couplings.Kas :=
  claimC5_thm exAsmLoad rfl

/-- Claim C6: the final coupling matrices are identity-like maps — `Tas` of
shape (uvlm inputs) x (beam outputs) and `Tsa` of shape (beam inputs) x (uvlm
outputs), with `Tsa` scaled by the force factor times the squared time
factor; in the zero-rigid-DOF case `Tas` is divided by the length scaling
factor unless the structural subsystem is modally projected, in which case it
stays the unscaled identity-like map. -/
theorem claimC6_thm (s : Assembler)
    (h : s.beam.sys.Kstr.rows = s.sys.num_dof_flex) :
    (LinearAeroelastic.assemble s).1.couplings.Tas =
      some (LinearAeroelastic.TasOf s) ∧
    (LinearAeroelastic.assemble s).1.couplings.Tsa =
      some (LinearAeroelastic.TsaOf s) ∧
    (LinearAeroelastic.TasOf s).rows = (LinearAeroelastic.projectAfter s).1.ss.inputs ∧
    (LinearAeroelastic.TasOf s).cols = (LinearAeroelastic.beamAfter s).ss.outputs ∧
    (LinearAeroelastic.TsaOf s).rows = (LinearAeroelastic.beamAfter s).ss.inputs ∧
    (LinearAeroelastic.TsaOf s).cols = (LinearAeroelastic.projectAfter s).1.ss.outputs ∧
    (∀ i j, i < (LinearAeroelastic.TsaOf s).rows →
      j < (LinearAeroelastic.TsaOf s).cols →
      (LinearAeroelastic.TsaOf s).entry i j = (if i = j then 1 else 0) *
        (s.uvlm.sys.ScalingFacts.force * s.uvlm.sys.ScalingFacts.time ^ 2)) ∧
    (s.settings.beam_settings.modal_projection = false →
      ∀ i j, i < (LinearAeroelastic.TasOf s).rows →
        j < (LinearAeroelastic.TasOf s).cols →
        (LinearAeroelastic.TasOf s).entry i j =
          (if i = j then 1 else 0) / s.uvlm.sys.ScalingFacts.length) ∧
    (s.settings.beam_settings.modal_projection = true →
      ∀ i j, i < (LinearAeroelastic.TasOf s).rows →
        j < (LinearAeroelastic.TasOf s).cols →
        (LinearAeroelastic.TasOf s).entry i j = (if i = j then 1 else 0)) := by
  have h0 := rigid_dof0_zero s h
  have hr : ¬ LinearAeroelastic.rigid_dof s > 0 := by
    unfold LinearAeroelastic.rigid_dof
    rw [h0]
    simp
  refine ⟨rfl, rfl, mkTas_rows s _ _, mkTas_cols s _ _, mkTsa_rows s _ _,
    mkTsa_cols s _ _, ?_, ?_, ?_⟩
  · intro i j hi hj
    exact mkTsa_entry s _ _ i j hi hj
  · intro hm i j hi hj
    unfold LinearAeroelastic.TasOf at hi hj
    rw [mkTas_rows] at hi
    rw [mkTas_cols] at hj
    exact mkTas_entry_nomodal s hr hm _ _ i j hi hj
  · intro hm i j hi hj
    unfold LinearAeroelastic.TasOf at hi hj
    rw [mkTas_rows] at hi
    rw [mkTas_cols] at hj
    exact mkTas_entry_modal s hr hm _ _ i j hi hj

/-- Claim C6 witness: concrete identity-like entries of the coupling
matrices at the flexible assembler. -/
theorem claimC6_witness :
    (LinearAeroelastic.TsaOf exAsmFlex).entry 0 0 =
      (if (0 : Nat) = 0 then (1 : ℚ) else 0) *
        (exAsmFlex.uvlm.sys.ScalingFacts.force *
          exAsmFlex.uvlm.sys.ScalingFacts.time ^ 2) ∧
    (LinearAeroelastic.TasOf exAsmFlex).entry 0 0 =
      (if (0 : Nat) = 0 then (1 : ℚ) else 0) /
        exAsmFlex.uvlm.sys.ScalingFacts.length :=
  ⟨(claimC6_thm exAsmFlex rfl).2.2.2.2.2.2.1 0 0 (by decide) (by decide),
   (claimC6_thm exAsmFlex rfl).2.2.2.2.2.2.2.1 rfl 0 0 (by decide) (by decide)⟩

/-- Claim C9: after every successful `assemble`, on both the normal and the
load path, the couplings dictionary holds `Tas` and `Tsa` equal to exactly
the matrices passed to the interconnection, so a later `update` recouples
with precisely the matrices of the most recent `assemble`; the projection
entries `Ksa` and `Kas` are stored only on the non-load path. -/
theorem claimC9_thm (s : Assembler) :
    (LinearAeroelastic.assemble s).1.couplings.Tas =
      some (LinearAeroelastic.TasOf s) ∧
    (LinearAeroelastic.assemble s).1.couplings.Tsa =
      some (LinearAeroelastic.TsaOf s) ∧
    (LinearAeroelastic.assemble s).1.ss =
      some (couple (LinearAeroelastic.projectAfter s).1.ss
        (LinearAeroelastic.beamAfter s).ss
        (LinearAeroelastic.TasOf s) (LinearAeroelastic.TsaOf s)) ∧
    (s.load_uvlm_from_file = false →
      (LinearAeroelastic.assemble s).1.couplings.Ksa =
        some (LinearAeroelastic.mkKsa s (LinearAeroelastic.beamAfter s)) ∧
      (LinearAeroelastic.assemble s).1.couplings.Kas =
        some (LinearAeroelastic.mkKas s (LinearAeroelastic.beamAfter s))) ∧
    (s.load_uvlm_from_file = true →
      (LinearAeroelastic.assemble s).1.couplings.Ksa = s.couplings.Ksa ∧
      (LinearAeroelastic.assemble s).1.couplings.Kas = s.couplings.Kas) ∧
    (∀ v : ℚ, ∃ a r,
      LinearAeroelastic.update (LinearAeroelastic.assemble s).1 v =
        Except.ok (a, r) ∧
      r = couple (LinearAeroelastic.assemble s).1.uvlm.ss a.beam.ss
        (LinearAeroelastic.TasOf s) (LinearAeroelastic.TsaOf s)) := by
  refine ⟨rfl, rfl, rfl, ?_, ?_, ?_⟩
  · intro hl
    constructor
    · show (LinearAeroelastic.projectAfter s).2.Ksa = _
      unfold LinearAeroelastic.projectAfter LinearAeroelastic.project
      rw [hl]
      simp
    · show (LinearAeroelastic.projectAfter s).2.Kas = _
      unfold LinearAeroelastic.projectAfter LinearAeroelastic.project
      rw [hl]
      simp
  · intro hl
    constructor
    · show (LinearAeroelastic.projectAfter s).2.Ksa = _
      unfold LinearAeroelastic.projectAfter LinearAeroelastic.project
      rw [hl]
      simp
    · show (LinearAeroelastic.projectAfter s).2.Kas = _
      unfold LinearAeroelastic.projectAfter LinearAeroelastic.project
      rw [hl]
      simp
  · intro v
    exact ⟨_, _, update_of_stored (LinearAeroelastic.assemble s).1 v
      (LinearAeroelastic.TasOf s) (LinearAeroelastic.TsaOf s) rfl rfl, rfl⟩

/-- Claim C9 witness: the stored-only-on-the-non-load-path part at the
concrete non-load assembler. -/
theorem claimC9_witness :
    (LinearAeroelastic.assemble exAsmFlex).1.couplings.Ksa =
      some (LinearAeroelastic.mkKsa exAsmFlex
        (LinearAeroelastic.beamAfter exAsmFlex)) ∧
    (LinearAeroelastic.assemble exAsmFlex).1.couplings.Kas =
      some (LinearAeroelastic.mkKas exAsmFlex
        (LinearAeroelastic.beamAfter exAsmFlex)) :=
  (claimC9_thm exAsmFlex).2.2.2.1 rfl

/-- Claim C7: `update(u_infty)` reassembles only the structural subsystem at
the new time scale `length / u_infty` and rebuilds the interconnection from
the previously stored coupling matrices; the aerodynamic subsystem and the
stored couplings are left unchanged, and the new coupled system is both
returned and stored. -/
theorem claimC7_thm (s : Assembler) (v : ℚ) (tas tsa : Mat)
    (hT : s.couplings.Tas = some tas) (hS : s.couplings.Tsa = some tsa) :
    ∃ a r, LinearAeroelastic.update s v = Except.ok (a, r) ∧
      a.uvlm = s.uvlm ∧
      a.couplings = s.couplings ∧
      a.sys = s.sys ∧
      a.beam.sys = s.beam.sys.update_matrices_time_scale
        (s.uvlm.sys.ScalingFacts.length / v) ∧
      a.beam.ss = (s.beam.sys.update_matrices_time_scale
        (s.uvlm.sys.ScalingFacts.length / v)).SSdiscOf ∧
      a.ss = some (couple s.uvlm.ss a.beam.ss tas tsa) ∧
      r = couple s.uvlm.ss a.beam.ss tas tsa :=
  ⟨_, _, update_of_stored s v tas tsa hT hS, rfl, rfl, rfl, rfl, rfl, rfl, rfl⟩

/-- Claim C7 witness: `update` at speed `2` on the state produced by
`assemble` from the concrete flexible assembler. -/
theorem claimC7_witness :
    ∃ a r, LinearAeroelastic.update (LinearAeroelastic.assemble exAsmFlex).1 2 =
        Except.ok (a, r) ∧
      a.uvlm = (LinearAeroelastic.assemble exAsmFlex).1.uvlm ∧
      a.couplings = (LinearAeroelastic.assemble exAsmFlex).1.couplings ∧
      a.sys = (LinearAeroelastic.assemble exAsmFlex).1.sys ∧
      a.beam.sys = (LinearAeroelastic.assemble exAsmFlex).1.beam.sys.update_matrices_time_scale
        ((LinearAeroelastic.assemble exAsmFlex).1.uvlm.sys.ScalingFacts.length / 2) ∧
      a.beam.ss = ((LinearAeroelastic.assemble exAsmFlex).1.beam.sys.update_matrices_time_scale
        ((LinearAeroelastic.assemble exAsmFlex).1.uvlm.sys.ScalingFacts.length / 2)).SSdiscOf ∧
      a.ss = some (couple (LinearAeroelastic.assemble exAsmFlex).1.uvlm.ss a.beam.ss
        (LinearAeroelastic.TasOf exAsmFlex) (LinearAeroelastic.TsaOf exAsmFlex)) ∧
      r = couple (LinearAeroelastic.assemble exAsmFlex).1.uvlm.ss a.beam.ss
        (LinearAeroelastic.TasOf exAsmFlex) (LinearAeroelastic.TsaOf exAsmFlex) :=
  claimC7_thm (LinearAeroelastic.assemble exAsmFlex).1 2
    (LinearAeroelastic.TasOf exAsmFlex) (LinearAeroelastic.TsaOf exAsmFlex) rfl rfl

/-- Claim C2: if the coupled system is assembled with the aerodynamic time
scaling factor equal to `length_scale / v`, then calling `update v` leaves
the structural state matrix and discrete time step exactly equal to their
post-assembly values (idempotence of `update` under an unchanged reference
speed). -/
theorem claimC2_thm (s : Assembler) (v : ℚ)
    (h : s.uvlm.sys.ScalingFacts.time = s.uvlm.sys.ScalingFacts.length / v) :
    ∃ a r, LinearAeroelastic.update (LinearAeroelastic.assemble s).1 v =
        Except.ok (a, r) ∧
      a.beam.ss.A = (LinearAeroelastic.assemble s).1.beam.ss.A ∧
      a.beam.ss.dt = (LinearAeroelastic.assemble s).1.beam.ss.dt := by
  have hsys : (LinearAeroelastic.assemble s).1.uvlm.sys = s.uvlm.sys :=
    projectAfter_fst_sys s
  refine ⟨_, _, update_of_stored (LinearAeroelastic.assemble s).1 v
    (LinearAeroelastic.TasOf s) (LinearAeroelastic.TsaOf s) rfl rfl, ?_, ?_⟩
  · show (((LinearAeroelastic.assemble s).1.beam.sys.update_matrices_time_scale
      ((LinearAeroelastic.assemble s).1.uvlm.sys.ScalingFacts.length / v)).SSdiscOf).A = _
    rw [hsys, ← h]
    rfl
  · show (((LinearAeroelastic.assemble s).1.beam.sys.update_matrices_time_scale
      ((LinearAeroelastic.assemble s).1.uvlm.sys.ScalingFacts.length / v)).SSdiscOf).dt = _
    rw [hsys, ← h]
    rfl

/-- Claim C2 witness: unit reference speed with unit length scale, so the
assembly time scale `1` equals `length / v`. -/
theorem claimC2_witness :
    ∃ a r, LinearAeroelastic.update (LinearAeroelastic.assemble exAsmFlex).1 1 =
        Except.ok (a, r) ∧
      a.beam.ss.A = (LinearAeroelastic.assemble exAsmFlex).1.beam.ss.A ∧
      a.beam.ss.dt = (LinearAeroelastic.assemble exAsmFlex).1.beam.ss.dt :=
  claimC2_thm exAsmFlex 1 (by norm_num [exAsmFlex, exUvlm, exScaling])
